import Mathlib

/-!
Verification of the recass audio capture and transcription pipeline.

This file gives a shallow embedding, in Lean 4, of the core of
src/audio_recorder.py and src/transcriber.py of the recass repository,
together with theorems settling the behavioural claims about that core.

Conventions of the embedding:
* raw driver samples are signed 16-bit integers, modelled as Int;
* float audio samples (after the division by 32768.0 and after any
  resampling) are modelled as rationals, Lean stand-ins for the reals the
  floating-point code computes with;
* the external speech engine and diarizer are modelled by explicit
  oracles: a function assigning to the k-th engine call of a chunk its
  outcome (a returned text, an accelerator out-of-memory error, or any
  other exception), and one outcome for the single diarization call;
* Python exceptions are modelled by explicit outcome values threaded
  through the control flow; a raise escaping a modelled function is a
  Boolean field of its result.
-/

set_option autoImplicit false

/-- WHISPER_SAMPLE_RATE from src/config.py. -/
def WHISPER_SAMPLE_RATE : Nat := 16000

/-- MIX_SAMPLE_RATE from src/config.py. -/
def MIX_SAMPLE_RATE : Nat := 48000

/-! ### StreamBuffer: the chunking core of AudioRecorder._process_data
(src/audio_recorder.py lines 101-132, for one source). -/

/-- Application of a stream's optional resampler to one normalized chunk.
The resampler is abstracted as an arbitrary function on float sample
lists, as in the source it is an external torchaudio transform; an
absent resampler is pass-through. -/
def applyRs (rs : Option (List ℚ → List ℚ)) (c : List ℚ) : List ℚ :=
  match rs with
  | some r => r c
  | none => c

/-- One push of raw driver samples into a source's backlog, the chunking
slice of AudioRecorder._process_data: append the new data, and if the
accumulated size has reached frames_per_chunk, slice off one chunk
(note the source uses a single if, not a loop), normalize it to float
range by dividing by 32768.0, resample it when a resampler is
configured, and emit it onto the transcription queue.  Returns the new
backlog and the list of chunks emitted by this push (the source emits
zero or one). -/
def processPush (fpc : Nat) (rs : Option (List ℚ → List ℚ))
    (backlog data : List Int) : List Int × List (List ℚ) :=
  if fpc ≤ (backlog ++ data).length then
    ((backlog ++ data).drop fpc,
     [applyRs rs (((backlog ++ data).take fpc).map (fun x => (x : ℚ) / 32768))])
  else
    (backlog ++ data, [])

/-- Folding a sequence of driver callbacks through processPush, starting
from a given backlog; returns the final backlog. -/
def pushAll (fpc : Nat) (rs : Option (List ℚ → List ℚ)) :
    List Int → List (List Int) → List Int
  | backlog, [] => backlog
  | backlog, d :: rest => pushAll fpc rs (processPush fpc rs backlog d).1 rest

theorem processPush_backlog_lt (fpc : Nat) (rs : Option (List ℚ → List ℚ))
    (backlog data : List Int) (_h1 : 1 ≤ fpc)
    (hb : backlog.length < fpc) (hd : data.length ≤ fpc) :
    (processPush fpc rs backlog data).1.length < fpc := by
  by_cases hc : fpc ≤ (backlog ++ data).length
  · unfold processPush
    rw [if_pos hc]
    simp only [List.length_drop, List.length_append]
    simp only [List.length_append] at hc
    omega
  · unfold processPush
    rw [if_neg hc]
    simp only [List.length_append] at hc ⊢
    omega

theorem pushAll_backlog_lt (fpc : Nat) (rs : Option (List ℚ → List ℚ))
    (h1 : 1 ≤ fpc) :
    ∀ (pushes : List (List Int)) (backlog : List Int),
      backlog.length < fpc → (∀ d ∈ pushes, d.length ≤ fpc) →
      (pushAll fpc rs backlog pushes).length < fpc := by
  intro pushes
  induction pushes with
  | nil => intro backlog hb _; simpa [pushAll] using hb
  | cons d rest ih =>
    intro backlog hb hall
    rw [pushAll]
    exact ih _ (processPush_backlog_lt fpc rs backlog d h1 hb
        (hall d (List.mem_cons_self d rest)))
      (fun e he => hall e (List.mem_cons_of_mem d he))

/-- Claim C1 (counterexample): with frames_per_chunk = 2 and an empty
backlog, pushing 4 = 2 x frames_per_chunk samples in one call does not
emit 2 chunks with empty backlog: the source extracts a chunk with an
if, not a while, so only one chunk comes out and a whole chunk's worth
of samples stays in the backlog. -/
theorem push_boundary_cex :
    ¬ ((processPush 2 none [] [0, 0, 0, 0]).2.length = 2 ∧
       (processPush 2 none [] [0, 0, 0, 0]).1 = []) := by
  decide

/-- Claim C1 (amended): a push of N x frames_per_chunk raw samples into an
empty backlog emits exactly ONE chunk (chunk extraction runs once per
push, via an if, not a loop) and leaves a backlog of (N-1) x
frames_per_chunk samples; in particular for N = 1 it emits exactly one
chunk and leaves a zero backlog. -/
theorem push_boundary_amended (fpc N : Nat) (rs : Option (List ℚ → List ℚ))
    (data : List Int) (_h1 : 1 ≤ fpc) (hN : 1 ≤ N)
    (hlen : data.length = N * fpc) :
    (processPush fpc rs [] data).2.length = 1 ∧
    (processPush fpc rs [] data).1.length = (N - 1) * fpc := by
  have hcond : fpc ≤ ([] ++ data : List Int).length := by
    simp only [List.nil_append, hlen]
    calc fpc = 1 * fpc := (Nat.one_mul fpc).symm
    _ ≤ N * fpc := Nat.mul_le_mul_right fpc hN
  simp only [processPush, hcond, if_true]
  refine ⟨rfl, ?_⟩
  simp only [List.length_drop, List.nil_append, hlen, Nat.sub_one_mul]

/-- Claim C1 witness: the amended statement evaluated at
frames_per_chunk = 2, N = 2, data of length 4. -/
theorem push_boundary_amended_witness :
    (processPush 2 none [] [0, 0, 0, 0]).2.length = 1 ∧
    (processPush 2 none [] [0, 0, 0, 0]).1.length = (2 - 1) * 2 :=
  push_boundary_amended 2 2 none [0, 0, 0, 0] (by decide) (by decide) (by decide)

/-- Claim C3 (counterexample): a single push of 2 x frames_per_chunk
samples (frames_per_chunk = 2, empty backlog) leaves a backlog of
exactly frames_per_chunk samples, violating backlog length <
frames_per_chunk: excess is NOT chunked out within the same push. -/
theorem backlog_invariant_cex :
    ¬ ((processPush 2 none [] [0, 0, 0, 0]).1.length < 2) := by
  decide

/-- Claim C3 (amended): for every frames_per_chunk >= 1 and every sequence
of pushes starting from an empty backlog, PROVIDED each individual push
delivers at most frames_per_chunk samples (true of the driver callbacks,
whose block size of 1024 frames is far below a chunk), the retained
backlog after every completed push is strictly shorter than one chunk.
Without the per-push size bound the invariant fails (see the
counterexample), since extraction runs once per push. -/
theorem backlog_invariant_amended (fpc : Nat) (rs : Option (List ℚ → List ℚ))
    (pushes : List (List Int)) (h1 : 1 ≤ fpc)
    (hsm : ∀ d ∈ pushes, d.length ≤ fpc) :
    (pushAll fpc rs [] pushes).length < fpc :=
  pushAll_backlog_lt fpc rs h1 pushes [] (by simpa using h1) hsm

/-- Claim C3 witness: the amended statement evaluated at
frames_per_chunk = 2 and three single-sample pushes. -/
theorem backlog_invariant_amended_witness :
    (pushAll 2 none [] [[5], [6], [7]]).length < 2 :=
  backlog_invariant_amended 2 none [[5], [6], [7]] (by decide)
    (by intro d hd; fin_cases hd <;> decide)

/-! ### Transcriber: the consumer of src/transcriber.py.
The speech engine and diarizer are external; each chunk's processing is
parameterized by an oracle giving the outcome of the k-th engine call
made while handling that chunk, and the outcome of the (single)
diarization call. -/

/-- A speaker segment as diarize_and_transcribe uses it: the slice bounds
in frames (already multiplied by the sample rate and truncated) and the
speaker label. -/
structure Seg where
  startFrame : Nat
  endFrame : Nat
  speaker : String
deriving DecidableEq

/-- Length in samples of audio_float[start_frame:end_frame] for a chunk
of chunkLen samples: Python slicing clamps both bounds to the list
length, and an inverted range gives an empty slice. -/
def segLen (chunkLen : Nat) (s : Seg) : Nat :=
  min s.endFrame chunkLen - min s.startFrame chunkLen

/-- Outcome of one call to the external speech engine: the returned text,
a torch accelerator out-of-memory error, or any other exception. -/
inductive CallOutcome where
  | ok (text : String)
  | oom
  | err
deriving DecidableEq

/-- Outcome of the diarization pipeline call: a list of speaker segments,
an accelerator out-of-memory error, or any other exception. -/
inductive DiarOutcome where
  | ok (segs : List Seg)
  | oom
  | err
deriving DecidableEq

/-- True when the modelled engine call raises (any exception, including
out-of-memory). -/
def raises : CallOutcome → Bool
  | .ok _ => false
  | .oom => true
  | .err => true

/-- Number of engine calls consumed by one eligible segment: one for the
first attempt, plus one for the fallback retry when the first raises. -/
def usedCalls : CallOutcome → Nat
  | .ok _ => 1
  | _ => 2

/-- The call sites at which Transcriber invokes the speech engine. -/
inductive CallSite where
  | micStd
  | loopStd
  | zeroSegFB
  | segFirst (i : Nat)
  | segRetry (i : Nat)
  | cpuRetry
  | errFB
deriving DecidableEq

/-- A record of one engine invocation: where it happened and which
language argument was passed (none models language=None, Whisper
auto-detection). -/
structure Call where
  site : CallSite
  lang : Option String
deriving DecidableEq

/-- One invocation of the text callback: (text, source, speaker_or_none). -/
structure Emit where
  text : String
  source : String
  speaker : Option String
deriving DecidableEq

/-- Which devices the two models currently report: true means cuda. -/
structure Devices where
  modelCuda : Bool
  diarCuda : Bool
deriving DecidableEq

/-- Language argument passed to model.transcribe: None (auto detection)
when the configured transcription language is the string auto, the
configured language otherwise (Transcriber lines 104, 158, 184, 230,
245). -/
def langOf (cfgLang : String) : Option String :=
  if cfgLang = "auto" then none else some cfgLang

/-- Python str.strip() on the engine's result text: drop leading and
trailing whitespace. -/
def pyStrip (s : String) : String :=
  ⟨((s.data.dropWhile Char.isWhitespace).reverse.dropWhile
      Char.isWhitespace).reverse⟩

/-- Emission discipline shared by every call site: result text is
stripped; a non-empty text is passed to the text callback, an empty one
is only logged. -/
def emitIf (t : String) (source : String) (speaker : Option String) : List Emit :=
  if pyStrip t = "" then [] else [⟨pyStrip t, source, speaker⟩]

/-- Sum of squared samples, the quantity inside np.mean(audio_float**2)
up to the division by the length. -/
def sumsq : List ℚ → ℚ
  | [] => 0
  | a :: rest => a * a + sumsq rest

/-- The MIC silence gate of _transcribe_standard: rms < 0.001 where
rms = sqrt(mean(samples^2)).  Squaring the comparison (both sides
nonnegative) this is mean(samples^2) < 10^-6, i.e.
10^6 * sumsq < length.  On an empty chunk numpy's mean is NaN and the
comparison NaN < 0.001 is false, so an empty chunk is NOT treated as
silent; hence the length-nonzero conjunct. -/
def silentMic (samples : List ℚ) : Bool :=
  samples.length != 0 && decide (1000000 * sumsq samples < (samples.length : ℚ))

/-- Result of _transcribe_standard: the engine calls made, the text
callback invocations, and whether an exception escaped to the run loop
(the single transcribe call has no local handler there). -/
structure SResult where
  calls : List Call
  emits : List Emit
  raised : Bool
deriving DecidableEq

/-- Transcriber._transcribe_standard (lines 85-114): for MIC, an
energy gate then one engine call with language fixed to en and strict
anti-hallucination parameters; otherwise one engine call with the
configured language.  The call outcome is f 0. -/
def transcribeStandard (cfgLang : String) (f : Nat → CallOutcome)
    (samples : List ℚ) (source : String) : SResult :=
  if source = "MIC" then
    if silentMic samples then ⟨[], [], false⟩
    else
      match f 0 with
      | .ok t => ⟨[⟨.micStd, some "en"⟩], emitIf t "MIC" none, false⟩
      | _ => ⟨[⟨.micStd, some "en"⟩], [], true⟩
  else
    match f 0 with
    | .ok t => ⟨[⟨.loopStd, langOf cfgLang⟩], emitIf t source none, false⟩
    | _ => ⟨[⟨.loopStd, langOf cfgLang⟩], [], true⟩

/-- Handling of one eligible (not-too-short) segment, Transcriber lines
183-209: a first transcribe attempt with the configured language; if it
raises (any exception), one fallback attempt with language en; if that
also raises, the failure is logged and the segment given up.  Returns
the calls made and the emissions. -/
def procSeg (cfgLang : String) (sp : String) (i : Nat) (o1 o2 : CallOutcome) :
    List Call × List Emit :=
  match o1 with
  | .ok t => ([⟨.segFirst i, langOf cfgLang⟩], emitIf t "LOOPBACK" (some sp))
  | _ =>
    match o2 with
    | .ok t => ([⟨.segFirst i, langOf cfgLang⟩, ⟨.segRetry i, some "en"⟩],
                emitIf t "LOOPBACK" (some sp))
    | _ => ([⟨.segFirst i, langOf cfgLang⟩, ⟨.segRetry i, some "en"⟩], [])

/-- The per-segment loop of diarize_and_transcribe (lines 170-209) over
the enumerated segments, threading the engine-call counter k: segments
shorter than 0.2 s at 16 kHz (3200 samples) are skipped with no engine
call; each other segment consumes one or two calls as described at
procSeg, and a failure on one segment does not stop the loop. -/
def procSegs (cfgLang : String) (chunkLen : Nat) (f : Nat → CallOutcome) :
    List (Nat × Seg) → Nat → List Call × List Emit
  | [], _ => ([], [])
  | (i, s) :: rest, k =>
    if segLen chunkLen s < 3200 then
      procSegs cfgLang chunkLen f rest k
    else
      ((procSeg cfgLang s.speaker i (f k) (f (k + 1))).1 ++
         (procSegs cfgLang chunkLen f rest (k + usedCalls (f k))).1,
       (procSeg cfgLang s.speaker i (f k) (f (k + 1))).2 ++
         (procSegs cfgLang chunkLen f rest (k + usedCalls (f k))).2)

/-- Result of diarize_and_transcribe: the device state afterwards, the
engine calls made, the emissions, and whether an exception escaped the
method into the run loop. -/
structure DResult where
  dev : Devices
  calls : List Call
  emits : List Emit
  raised : Bool
deriving DecidableEq

/-- The except torch.OutOfMemoryError handler (lines 211-238): move each
model that reports cuda to the cpu; if a move itself raises, log and
return with no retry (the device state is modelled as unchanged in that
case); otherwise retry the whole chunk once with a single transcribe
call, whose own failure is caught and only logged. -/
def oomHandler (cfgLang : String) (dev : Devices) (moveOk : Bool)
    (retryOutcome : CallOutcome) (pre : List Call) : DResult :=
  if moveOk = false ∧ (dev.modelCuda = true ∨ dev.diarCuda = true) then
    ⟨dev, pre, [], false⟩
  else
    match retryOutcome with
    | .ok t => ⟨⟨false, false⟩, pre ++ [⟨.cpuRetry, langOf cfgLang⟩],
                emitIf t "LOOPBACK" none, false⟩
    | _ => ⟨⟨false, false⟩, pre ++ [⟨.cpuRetry, langOf cfgLang⟩], [], false⟩

/-- The generic except Exception handler (lines 240-251): one whole-chunk
transcription with the configured language and no speaker label; this
fallback call has no local handler, so its own failure escapes the
method (raised = true). -/
def errHandler (cfgLang : String) (dev : Devices) (fbOutcome : CallOutcome)
    (pre : List Call) : DResult :=
  match fbOutcome with
  | .ok t => ⟨dev, pre ++ [⟨.errFB, langOf cfgLang⟩],
              emitIf t "LOOPBACK" none, false⟩
  | _ => ⟨dev, pre ++ [⟨.errFB, langOf cfgLang⟩], [], true⟩

/-- Transcriber.diarize_and_transcribe (lines 116-251).  The body runs
the diarization call; zero segments lead to one whole-chunk fallback
transcription (still inside the outer try, so its own out-of-memory or
other failure reaches the outer handlers); otherwise the per-segment
loop runs, whose internal handlers let nothing escape.  An OOM escaping
the body triggers the cpu-move-and-retry handler; any other escaping
exception triggers the whole-chunk fallback handler. -/
def diarizeAndTranscribe (cfgLang : String) (dev : Devices)
    (f : Nat → CallOutcome) (diar : DiarOutcome) (moveOk : Bool)
    (samples : List ℚ) : DResult :=
  match diar with
  | .ok segs =>
    if segs.length = 0 then
      match f 0 with
      | .ok t => ⟨dev, [⟨.zeroSegFB, langOf cfgLang⟩],
                  emitIf t "LOOPBACK" none, false⟩
      | .oom => oomHandler cfgLang dev moveOk (f 1) [⟨.zeroSegFB, langOf cfgLang⟩]
      | .err => errHandler cfgLang dev (f 1) [⟨.zeroSegFB, langOf cfgLang⟩]
    else
      ⟨dev, (procSegs cfgLang samples.length f segs.enum 0).1,
       (procSegs cfgLang samples.length f segs.enum 0).2, false⟩
  | .oom => oomHandler cfgLang dev moveOk (f 0) []
  | .err => errHandler cfgLang dev (f 0) []

/-- The consumer's state that the run loop threads between chunks. -/
structure RunSt where
  dev : Devices
  recordingEnabled : Bool
  diarPresent : Bool
  cfgLang : String
deriving DecidableEq

/-- The per-chunk oracle for the external engines. -/
structure ChunkOracle where
  f : Nat → CallOutcome
  diar : DiarOutcome
  moveOk : Bool

/-- Result of one iteration of the run loop on a dequeued chunk. -/
structure StepResult where
  st : RunSt
  calls : List Call
  emits : List Emit

def stepOfD (st : RunSt) (r : DResult) : StepResult :=
  ⟨⟨r.dev, st.recordingEnabled, st.diarPresent, st.cfgLang⟩, r.calls, r.emits⟩

def stepOfS (st : RunSt) (r : SResult) : StepResult :=
  ⟨st, r.calls, r.emits⟩

/-- One iteration of Transcriber.run (lines 51-83) on a dequeued
(samples, source) pair: a disabled recording flag discards the chunk
with no engine call; LOOPBACK with a configured diarizer goes through
diarize_and_transcribe, everything else through _transcribe_standard.
Any exception escaping those (the raised flags) is caught by the run
loop's own except Exception handler, logged, and the loop continues, so
runStep is total and only the calls and emissions survive. -/
def runStep (st : RunSt) (samples : List ℚ) (source : String)
    (orc : ChunkOracle) : StepResult :=
  if st.recordingEnabled = false then ⟨st, [], []⟩
  else if source = "LOOPBACK" then
    if st.diarPresent then
      stepOfD st (diarizeAndTranscribe st.cfgLang st.dev orc.f orc.diar
        orc.moveOk samples)
    else stepOfS st (transcribeStandard st.cfgLang orc.f samples source)
  else stepOfS st (transcribeStandard st.cfgLang orc.f samples source)

/-- The run loop over a whole queue of chunks, returning the final
consumer state. -/
def runSteps : RunSt → List (List ℚ × String × ChunkOracle) → RunSt
  | st, [] => st
  | st, (samples, source, orc) :: rest =>
    runSteps (runStep st samples source orc).st rest

/-! ### CaptureSession: AudioRecorder.start_recording
(src/audio_recorder.py lines 207-241). -/

/-- One sounddevice input stream as the recorder holds it: the object is
open from successful construction on, and running only after start() is
called on it. -/
structure StreamSt where
  opened : Bool
  started : Bool
deriving DecidableEq

/-- The recorder attributes that start_recording touches. -/
structure CapSt where
  micStream : Option StreamSt
  loopStream : Option StreamSt
  micSamplerate : Option Nat
  loopSamplerate : Option Nat
  micResampler : Bool
  loopResampler : Bool
deriving DecidableEq

/-- The recorder state right after AudioRecorder.__init__. -/
def capInit : CapSt := ⟨none, none, none, none, false, false⟩

/-- AudioRecorder.start_recording: construct (and thereby open) the mic
input stream, then the loopback input stream, read their native sample
rates, create a resampler for each stream whose native rate differs
from WHISPER_SAMPLE_RATE, and only then start both streams.  A failing
stream constructor raises out of the method (modelled by the Boolean
openOk oracles and the returned raised flag); nothing in the method
catches it, and no stream created so far is closed or rolled back. -/
def startRecording (micOpenOk loopOpenOk : Bool) (micRate loopRate : Nat)
    (st : CapSt) : CapSt × Bool :=
  if micOpenOk = false then (st, true)
  else
    if loopOpenOk = false then
      ({st with micStream := some ⟨true, false⟩}, true)
    else
      ({st with
          micStream := some ⟨true, true⟩,
          loopStream := some ⟨true, true⟩,
          micSamplerate := some micRate,
          loopSamplerate := some loopRate,
          micResampler := decide (micRate ≠ WHISPER_SAMPLE_RATE),
          loopResampler := decide (loopRate ≠ WHISPER_SAMPLE_RATE)}, false)

/-! ### FileMixer: start_audio_file_writing / stop_audio_file_writing
(src/audio_recorder.py lines 134-205). -/

/-- The recorder attributes involved in audio file writing.  The file
buffers hold the raw int16 blocks appended by the driver callbacks. -/
structure FileSt where
  micFile : List (List Int)
  loopFile : List (List Int)
  isWriting : Bool
  mixedPath : Option String
deriving DecidableEq

/-- The file-writing state right after AudioRecorder.__init__: empty
buffers, not writing, no path ever set. -/
def fileInit : FileSt := ⟨[], [], false, none⟩

/-- AudioRecorder.start_audio_file_writing: record the path, clear both
per-source buffers, raise the writing flag. -/
def startAudioFileWriting (p : String) (_st : FileSt) : FileSt :=
  ⟨[], [], true, some p⟩

/-- Python truthiness of the stored path: not self.mixed_audio_path is
true when it is None or the empty string. -/
def pathFalsy : Option String → Bool
  | none => true
  | some p => p == ""

/-- AudioRecorder.stop_audio_file_writing: under the lock, clear the
writing flag, snapshot both buffers and empty them; then return None if
the path was never set or both snapshots are empty; otherwise process
the audio and attempt to save.  The external torch processing is
abstracted by oracles: micOutLen and loopOutLen are the lengths of each
track after concatenation, float conversion and resampling to
MIX_SAMPLE_RATE (an empty snapshot gives an empty tensor of length 0),
and saveOk tells whether torchaudio.save succeeds, a failing save being
caught and reported as None. -/
def stopAudioFileWriting (micOutLen loopOutLen : Nat) (saveOk : Bool)
    (st : FileSt) : FileSt × Option String :=
  (⟨[], [], false, st.mixedPath⟩,
   if pathFalsy st.mixedPath then none
   else if st.micFile = [] ∧ st.loopFile = [] then none
   else if 0 < max (if st.micFile = [] then 0 else micOutLen)
       (if st.loopFile = [] then 0 else loopOutLen) then
     (if saveOk then st.mixedPath else none)
   else none)

/-! ### Claim theorems for CaptureSession and FileMixer -/

/-- A capture state in which no stream is running (started). -/
def noStreamRunning (st : CapSt) : Prop :=
  (∀ s, st.micStream = some s → s.started = false) ∧
  (∀ s, st.loopStream = some s → s.started = false)

/-- Claim C4 (counterexample): starting from a fresh recorder, when the
mic stream opens and the loopback stream fails to open, start_recording
raises, and the mic stream IS left open (constructed and never closed),
though not started: the claim that the microphone stream is not left
open is false. -/
theorem open_failure_cex :
    (startRecording true false 48000 44100 capInit).2 = true ∧
    (startRecording true false 48000 44100 capInit).1.micStream
      = some ⟨true, false⟩ := by
  exact ⟨rfl, rfl⟩

/-- Claim C4 (amended): on a fresh recorder, start_recording raises a
device error if either stream fails to open, and in that case no stream
is left RUNNING (streams are only started after both constructions
succeed); however, when the loopback open fails after the mic stream
was created, the mic stream IS left open (not closed), merely never
started. -/
theorem open_failure_amended (micOpenOk loopOpenOk : Bool)
    (micRate loopRate : Nat) :
    ((micOpenOk = false ∨ loopOpenOk = false) →
      (startRecording micOpenOk loopOpenOk micRate loopRate capInit).2 = true) ∧
    ((startRecording micOpenOk loopOpenOk micRate loopRate capInit).2 = true →
      noStreamRunning (startRecording micOpenOk loopOpenOk micRate loopRate capInit).1) ∧
    (micOpenOk = true → loopOpenOk = false →
      (startRecording micOpenOk loopOpenOk micRate loopRate capInit).1.micStream
        = some ⟨true, false⟩) := by
  cases micOpenOk <;> cases loopOpenOk <;>
    simp [startRecording, capInit, noStreamRunning]

/-- Claim C4 witness: the amended statement applied at a mic that opens
and a loopback that fails. -/
theorem open_failure_amended_witness :
    (startRecording true false 48000 44100 capInit).2 = true ∧
    noStreamRunning (startRecording true false 48000 44100 capInit).1 ∧
    (startRecording true false 48000 44100 capInit).1.micStream
      = some ⟨true, false⟩ :=
  ⟨(open_failure_amended true false 48000 44100).1 (Or.inr rfl),
   (open_failure_amended true false 48000 44100).2.1
     ((open_failure_amended true false 48000 44100).1 (Or.inr rfl)),
   (open_failure_amended true false 48000 44100).2.2 rfl rfl⟩

/-- Claim C8: stop_audio_file_writing always clears the writing flag and
empties both recording buffers first, and returns None (without
raising) when the output path was never set or when both per-source
buffers are empty. -/
theorem stop_writing_none_cases (micOutLen loopOutLen : Nat) (saveOk : Bool)
    (st : FileSt) :
    ((stopAudioFileWriting micOutLen loopOutLen saveOk st).1.isWriting = false ∧
     (stopAudioFileWriting micOutLen loopOutLen saveOk st).1.micFile = [] ∧
     (stopAudioFileWriting micOutLen loopOutLen saveOk st).1.loopFile = []) ∧
    (st.mixedPath = none →
      (stopAudioFileWriting micOutLen loopOutLen saveOk st).2 = none) ∧
    (st.micFile = [] ∧ st.loopFile = [] →
      (stopAudioFileWriting micOutLen loopOutLen saveOk st).2 = none) := by
  refine ⟨?_, ?_, ?_⟩
  · exact ⟨rfl, rfl, rfl⟩
  · intro hp
    unfold stopAudioFileWriting
    rw [if_pos (by rw [hp]; rfl)]
  · rintro ⟨h1, h2⟩
    unfold stopAudioFileWriting
    by_cases hpf : pathFalsy st.mixedPath = true
    · rw [if_pos hpf]
    · rw [if_neg hpf, if_pos ⟨h1, h2⟩]

/-- Claim C8 witness: stop called on the fresh state, in which the path
was never set and both buffers are empty, clears everything and
returns None. -/
theorem stop_writing_none_cases_witness :
    (stopAudioFileWriting 3 5 true fileInit).1.isWriting = false ∧
    (stopAudioFileWriting 3 5 true fileInit).2 = none :=
  ⟨(stop_writing_none_cases 3 5 true fileInit).1.1,
   (stop_writing_none_cases 3 5 true fileInit).2.1 rfl⟩

/-! ### Claim theorems for the Transcriber consumer -/

/-- Claim C6: when the diarizer returns zero speaker segments for a
loopback chunk and the whole-chunk fallback transcription succeeds with
text t, exactly one engine call is made (the entire chunk, configured
language, no speaker), the text callback fires iff the stripped text is
non-empty and then with speaker none, the devices are untouched and
nothing escapes the method. -/
theorem zero_segments_fallback (cfgLang : String) (dev : Devices)
    (f : Nat → CallOutcome) (moveOk : Bool) (samples : List ℚ) (t : String)
    (hf : f 0 = CallOutcome.ok t) :
    (diarizeAndTranscribe cfgLang dev f (DiarOutcome.ok []) moveOk samples).calls
      = [⟨CallSite.zeroSegFB, langOf cfgLang⟩] ∧
    (diarizeAndTranscribe cfgLang dev f (DiarOutcome.ok []) moveOk samples).emits
      = (if pyStrip t = "" then [] else [⟨pyStrip t, "LOOPBACK", none⟩]) ∧
    (diarizeAndTranscribe cfgLang dev f (DiarOutcome.ok []) moveOk samples).dev
      = dev ∧
    (diarizeAndTranscribe cfgLang dev f (DiarOutcome.ok []) moveOk samples).raised
      = false := by
  simp [diarizeAndTranscribe, hf, emitIf]

/-- Claim C6 witness: zero segments with a fallback call returning a
non-empty text. -/
theorem zero_segments_fallback_witness :
    (diarizeAndTranscribe "en" ⟨true, true⟩ (fun _ => CallOutcome.ok " hi ")
        (DiarOutcome.ok []) true []).calls
      = [⟨CallSite.zeroSegFB, langOf "en"⟩] ∧
    (diarizeAndTranscribe "en" ⟨true, true⟩ (fun _ => CallOutcome.ok " hi ")
        (DiarOutcome.ok []) true []).emits
      = (if pyStrip " hi " = "" then [] else [⟨pyStrip " hi ", "LOOPBACK", none⟩]) :=
  ⟨(zero_segments_fallback "en" ⟨true, true⟩ (fun _ => CallOutcome.ok " hi ")
      true [] " hi " rfl).1,
   (zero_segments_fallback "en" ⟨true, true⟩ (fun _ => CallOutcome.ok " hi ")
      true [] " hi " rfl).2.1⟩

/-- Claim C10: when the diarization pipeline raises any exception other
than an accelerator out-of-memory error on a loopback chunk, the
generic handler makes exactly one whole-chunk transcription call with
no speaker label; if that call returns text t, the text callback fires
iff the stripped text is non-empty, the devices are untouched, nothing
escapes the method, and the run-loop iteration completes normally with
those emissions (the chunk is not silently dropped, the consumer
continues). -/
theorem diar_error_fallback (cfgLang : String) (dev : Devices)
    (f : Nat → CallOutcome) (moveOk : Bool) (samples : List ℚ) (t : String)
    (hf : f 0 = CallOutcome.ok t) :
    (diarizeAndTranscribe cfgLang dev f DiarOutcome.err moveOk samples).calls
      = [⟨CallSite.errFB, langOf cfgLang⟩] ∧
    (diarizeAndTranscribe cfgLang dev f DiarOutcome.err moveOk samples).emits
      = (if pyStrip t = "" then [] else [⟨pyStrip t, "LOOPBACK", none⟩]) ∧
    (diarizeAndTranscribe cfgLang dev f DiarOutcome.err moveOk samples).dev
      = dev ∧
    (diarizeAndTranscribe cfgLang dev f DiarOutcome.err moveOk samples).raised
      = false ∧
    (runStep ⟨dev, true, true, cfgLang⟩ samples "LOOPBACK"
        ⟨f, DiarOutcome.err, moveOk⟩).st = ⟨dev, true, true, cfgLang⟩ ∧
    (runStep ⟨dev, true, true, cfgLang⟩ samples "LOOPBACK"
        ⟨f, DiarOutcome.err, moveOk⟩).emits
      = (if pyStrip t = "" then [] else [⟨pyStrip t, "LOOPBACK", none⟩]) := by
  refine ⟨?_, ?_, ?_, ?_, ?_, ?_⟩ <;>
    simp [diarizeAndTranscribe, errHandler, hf, emitIf, runStep, stepOfD]

/-- Claim C10 witness: a non-out-of-memory diarization failure with a
fallback call returning a non-empty text. -/
theorem diar_error_fallback_witness :
    (diarizeAndTranscribe "auto" ⟨false, false⟩ (fun _ => CallOutcome.ok "ok")
        DiarOutcome.err false []).calls = [⟨CallSite.errFB, langOf "auto"⟩] ∧
    (diarizeAndTranscribe "auto" ⟨false, false⟩ (fun _ => CallOutcome.ok "ok")
        DiarOutcome.err false []).emits
      = (if pyStrip "ok" = "" then [] else [⟨pyStrip "ok", "LOOPBACK", none⟩]) :=
  ⟨(diar_error_fallback "auto" ⟨false, false⟩ (fun _ => CallOutcome.ok "ok")
      false [] "ok" rfl).1,
   (diar_error_fallback "auto" ⟨false, false⟩ (fun _ => CallOutcome.ok "ok")
      false [] "ok" rfl).2.1⟩

theorem bool_mono_false {b c : Bool} (h : b = true → c = true)
    (hc : c = false) : b = false := by
  cases b
  · rfl
  · rw [h rfl] at hc
    exact hc

theorem oomHandler_dev_mono (cfgLang : String) (dev : Devices) (moveOk : Bool)
    (o : CallOutcome) (pre : List Call) :
    ((oomHandler cfgLang dev moveOk o pre).dev.modelCuda = true →
      dev.modelCuda = true) ∧
    ((oomHandler cfgLang dev moveOk o pre).dev.diarCuda = true →
      dev.diarCuda = true) := by
  unfold oomHandler
  split
  · exact ⟨fun h => h, fun h => h⟩
  · cases o <;> simp

theorem errHandler_dev_eq (cfgLang : String) (dev : Devices)
    (o : CallOutcome) (pre : List Call) :
    (errHandler cfgLang dev o pre).dev = dev := by
  cases o <;> rfl

theorem diarize_dev_mono (cfgLang : String) (dev : Devices)
    (f : Nat → CallOutcome) (diar : DiarOutcome) (moveOk : Bool)
    (samples : List ℚ) :
    ((diarizeAndTranscribe cfgLang dev f diar moveOk samples).dev.modelCuda
        = true → dev.modelCuda = true) ∧
    ((diarizeAndTranscribe cfgLang dev f diar moveOk samples).dev.diarCuda
        = true → dev.diarCuda = true) := by
  cases diar with
  | ok segs =>
    simp only [diarizeAndTranscribe]
    by_cases h : segs.length = 0
    · rw [if_pos h]
      cases hf : f 0
      · exact ⟨fun h => h, fun h => h⟩
      · exact oomHandler_dev_mono cfgLang dev moveOk (f 1) _
      · rw [errHandler_dev_eq]
        exact ⟨fun h => h, fun h => h⟩
    · rw [if_neg h]
      exact ⟨fun h => h, fun h => h⟩
  | oom => exact oomHandler_dev_mono cfgLang dev moveOk (f 0) []
  | err =>
    simp only [diarizeAndTranscribe]
    rw [errHandler_dev_eq]
    exact ⟨fun h => h, fun h => h⟩

theorem runStep_dev_cpu (st : RunSt) (samples : List ℚ) (source : String)
    (orc : ChunkOracle) (hm : st.dev.modelCuda = false)
    (hd : st.dev.diarCuda = false) :
    (runStep st samples source orc).st.dev.modelCuda = false ∧
    (runStep st samples source orc).st.dev.diarCuda = false := by
  unfold runStep
  split
  · exact ⟨hm, hd⟩
  · split
    · split
      · have hmono := diarize_dev_mono st.cfgLang st.dev orc.f orc.diar
          orc.moveOk samples
        exact ⟨bool_mono_false hmono.1 hm, bool_mono_false hmono.2 hd⟩
      · exact ⟨hm, hd⟩
    · exact ⟨hm, hd⟩

theorem runSteps_dev_cpu (items : List (List ℚ × String × ChunkOracle)) :
    ∀ st : RunSt, st.dev.modelCuda = false → st.dev.diarCuda = false →
      (runSteps st items).dev.modelCuda = false ∧
      (runSteps st items).dev.diarCuda = false := by
  induction items with
  | nil => intro st hm hd; exact ⟨hm, hd⟩
  | cons item rest ih =>
    intro st hm hd
    obtain ⟨samples, source, orc⟩ := item
    rw [runSteps]
    have hstep := runStep_dev_cpu st samples source orc hm hd
    exact ih _ hstep.1 hstep.2

/-- Claim C2 (counterexample): an accelerator out-of-memory failure of
the TRANSCRIPTION call on a MIC chunk does not trigger the recovery
policy at all: Transcriber.run catches it with the generic handler, so
both models stay on the accelerator and the single failed call is not
retried (one engine call total, no cpu retry).  The recovery policy
lives only in diarize_and_transcribe. -/
theorem oom_no_cpu_move_cex :
    (runStep ⟨⟨true, true⟩, true, true, "en"⟩ [1] "MIC"
        ⟨fun _ => CallOutcome.oom, DiarOutcome.ok [], true⟩).st.dev
      = ⟨true, true⟩ ∧
    (runStep ⟨⟨true, true⟩, true, true, "en"⟩ [1] "MIC"
        ⟨fun _ => CallOutcome.oom, DiarOutcome.ok [], true⟩).calls
      = [⟨CallSite.micStd, some "en"⟩] := by
  have hs : silentMic [1] = false := by norm_num [silentMic, sumsq]
  constructor <;> simp [runStep, stepOfS, transcribeStandard, hs]

/-- Claim C2 (amended): when an accelerator out-of-memory error escapes
the BODY of diarize_and_transcribe on a loopback chunk (the diarization
call itself, or the zero-segment whole-chunk fallback) and the moves to
cpu succeed, both models are on the cpu afterwards, the same chunk is
retried exactly once as a whole-chunk transcription on the fallback
path, a failing retry just leaves no emission (logged, non-fatal, the
method returns normally); moreover the models are never moved back:
after any diarize_and_transcribe call a model on the accelerator was
already there before, and once the consumer state has both models on
the cpu, any further sequence of run-loop iterations keeps them there.
Out-of-memory failures elsewhere (MIC path, per-segment calls) do not
engage this policy — see the counterexample. -/
theorem oom_recovery_amended :
    (∀ (cfgLang : String) (dev : Devices) (f : Nat → CallOutcome)
        (samples : List ℚ),
      (diarizeAndTranscribe cfgLang dev f DiarOutcome.oom true samples).dev
        = ⟨false, false⟩ ∧
      (diarizeAndTranscribe cfgLang dev f DiarOutcome.oom true samples).calls
        = [⟨CallSite.cpuRetry, langOf cfgLang⟩] ∧
      (diarizeAndTranscribe cfgLang dev f DiarOutcome.oom true samples).raised
        = false ∧
      (raises (f 0) = true →
        (diarizeAndTranscribe cfgLang dev f DiarOutcome.oom true samples).emits
          = []) ∧
      (∀ t, f 0 = CallOutcome.ok t →
        (diarizeAndTranscribe cfgLang dev f DiarOutcome.oom true samples).emits
          = (if pyStrip t = "" then [] else [⟨pyStrip t, "LOOPBACK", none⟩]))) ∧
    (∀ (cfgLang : String) (dev : Devices) (f : Nat → CallOutcome)
        (diar : DiarOutcome) (moveOk : Bool) (samples : List ℚ),
      ((diarizeAndTranscribe cfgLang dev f diar moveOk samples).dev.modelCuda
          = true → dev.modelCuda = true) ∧
      ((diarizeAndTranscribe cfgLang dev f diar moveOk samples).dev.diarCuda
          = true → dev.diarCuda = true)) ∧
    (∀ (items : List (List ℚ × String × ChunkOracle)) (st : RunSt),
      st.dev.modelCuda = false → st.dev.diarCuda = false →
      (runSteps st items).dev.modelCuda = false ∧
      (runSteps st items).dev.diarCuda = false) := by
  refine ⟨?_, ?_, ?_⟩
  · intro cfgLang dev f samples
    refine ⟨?_, ?_, ?_, ?_, ?_⟩
    · cases hf : f 0 <;>
        simp [diarizeAndTranscribe, oomHandler, hf]
    · cases hf : f 0 <;>
        simp [diarizeAndTranscribe, oomHandler, hf]
    · cases hf : f 0 <;>
        simp [diarizeAndTranscribe, oomHandler, hf]
    · intro hr
      cases hf : f 0 with
      | ok t =>
        rw [hf] at hr
        simp [raises] at hr
      | oom => simp [diarizeAndTranscribe, oomHandler, hf]
      | err => simp [diarizeAndTranscribe, oomHandler, hf]
    · intro t hf
      simp [diarizeAndTranscribe, oomHandler, hf, emitIf]
  · intro cfgLang dev f diar moveOk samples
    exact diarize_dev_mono cfgLang dev f diar moveOk samples
  · intro items st hm hd
    exact runSteps_dev_cpu items st hm hd

/-- Claim C2 witness: the amended statement evaluated on a diarization
out-of-memory failure whose cpu retry also fails (chunk dropped, no
emission), and on a two-chunk queue processed entirely on the cpu. -/
theorem oom_recovery_amended_witness :
    (diarizeAndTranscribe "en" ⟨true, true⟩ (fun _ => CallOutcome.err)
        DiarOutcome.oom true []).dev = ⟨false, false⟩ ∧
    (diarizeAndTranscribe "en" ⟨true, true⟩ (fun _ => CallOutcome.err)
        DiarOutcome.oom true []).calls = [⟨CallSite.cpuRetry, langOf "en"⟩] ∧
    (diarizeAndTranscribe "en" ⟨true, true⟩ (fun _ => CallOutcome.err)
        DiarOutcome.oom true []).emits = [] ∧
    (runSteps ⟨⟨false, false⟩, true, true, "en"⟩
        [([], "LOOPBACK", ⟨fun _ => CallOutcome.ok "a", DiarOutcome.oom, true⟩),
         ([], "MIC", ⟨fun _ => CallOutcome.ok "b", DiarOutcome.ok [], true⟩)]
      ).dev.modelCuda = false :=
  ⟨(oom_recovery_amended.1 "en" ⟨true, true⟩ (fun _ => CallOutcome.err) []).1,
   (oom_recovery_amended.1 "en" ⟨true, true⟩ (fun _ => CallOutcome.err) []).2.1,
   (oom_recovery_amended.1 "en" ⟨true, true⟩ (fun _ => CallOutcome.err) []).2.2.2.1 rfl,
   (oom_recovery_amended.2.2
      [([], "LOOPBACK", ⟨fun _ => CallOutcome.ok "a", DiarOutcome.oom, true⟩),
       ([], "MIC", ⟨fun _ => CallOutcome.ok "b", DiarOutcome.ok [], true⟩)]
      ⟨⟨false, false⟩, true, true, "en"⟩ rfl rfl).1⟩

theorem sqrt_gate_iff (s : ℚ) (L : Nat) (hL : 0 < L) :
    (Real.sqrt ((s : ℝ) / (L : ℝ)) < 1 / 1000) ↔
      (1000000 * s < (L : ℚ)) := by
  rw [Real.sqrt_lt' (by norm_num : (0:ℝ) < 1/1000)]
  rw [div_lt_iff₀ (by exact_mod_cast hL : (0:ℝ) < (L : ℝ))]
  constructor
  · intro h
    have h2 : (1000000 : ℝ) * (s : ℝ) < (L : ℝ) := by nlinarith
    exact_mod_cast h2
  · intro h
    have h2 : (1000000 : ℝ) * (s : ℝ) < (L : ℝ) := by exact_mod_cast h
    nlinarith

/-- Claim C7: for a non-empty MIC chunk, if the root-mean-square of the
chunk is below the fixed 0.001 silence threshold, _transcribe_standard
makes no engine call and emits nothing; if the root-mean-square is at
or above the threshold, the chunk is passed to the engine (exactly one
MIC engine call, whatever its outcome). -/
theorem mic_silence_gate (samples : List ℚ) (cfgLang : String)
    (f : Nat → CallOutcome) (hne : samples ≠ []) :
    (Real.sqrt ((sumsq samples : ℝ) / (samples.length : ℝ)) < 1 / 1000 →
      (transcribeStandard cfgLang f samples "MIC").calls = [] ∧
      (transcribeStandard cfgLang f samples "MIC").emits = []) ∧
    (1 / 1000 ≤ Real.sqrt ((sumsq samples : ℝ) / (samples.length : ℝ)) →
      (transcribeStandard cfgLang f samples "MIC").calls
        = [⟨CallSite.micStd, some "en"⟩]) := by
  have hL : 0 < samples.length := List.length_pos.mpr hne
  have hb := sqrt_gate_iff (sumsq samples) samples.length hL
  constructor
  · intro h
    have hs : silentMic samples = true := by
      simp only [silentMic, Bool.and_eq_true, bne_iff_ne, ne_eq,
        decide_eq_true_eq]
      exact ⟨hL.ne', hb.mp h⟩
    simp [transcribeStandard, hs]
  · intro h
    have hnot : ¬ (1000000 * sumsq samples < (samples.length : ℚ)) := by
      rw [← hb]
      exact not_lt.mpr h
    have hs : silentMic samples = false := by
      unfold silentMic
      rw [decide_eq_false hnot, Bool.and_false]
    cases hf : f 0 <;> simp [transcribeStandard, hs, hf]

/-- Claim C7 witness: the all-zero one-sample chunk is gated (rms 0),
the all-ones one-sample chunk (rms 1) reaches the engine. -/
theorem mic_silence_gate_witness :
    ((transcribeStandard "en" (fun _ => CallOutcome.ok "x") [0] "MIC").calls
        = [] ∧
     (transcribeStandard "en" (fun _ => CallOutcome.ok "x") [0] "MIC").emits
        = []) ∧
    (transcribeStandard "en" (fun _ => CallOutcome.ok "x") [1] "MIC").calls
      = [⟨CallSite.micStd, some "en"⟩] :=
  ⟨(mic_silence_gate [0] "en" (fun _ => CallOutcome.ok "x") (by simp)).1
      (by norm_num [sumsq, Real.sqrt_zero]),
   (mic_silence_gate [1] "en" (fun _ => CallOutcome.ok "x") (by simp)).2
      (by norm_num [sumsq, Real.sqrt_one])⟩

/-- Claim C9: a MIC chunk that passes the silence gate is transcribed
with the language argument fixed to en, independently of the configured
transcription language; the configured language is applied on the
loopback paths: the non-MIC standard path passes langOf, and the first
call of the diarization path (whatever the diarizer and engine do)
passes langOf, where langOf maps the configured value auto to None
(Whisper auto-detection) and any other value to itself. -/
theorem language_policy :
    (∀ (cfgLang : String) (f : Nat → CallOutcome) (samples : List ℚ),
      silentMic samples = false →
      (transcribeStandard cfgLang f samples "MIC").calls
        = [⟨CallSite.micStd, some "en"⟩]) ∧
    (∀ (cfgLang : String) (f : Nat → CallOutcome) (samples : List ℚ)
        (source : String), source ≠ "MIC" →
      (transcribeStandard cfgLang f samples source).calls
        = [⟨CallSite.loopStd, langOf cfgLang⟩]) ∧
    (∀ (cfgLang : String) (dev : Devices) (f : Nat → CallOutcome)
        (moveOk : Bool) (samples : List ℚ),
      (diarizeAndTranscribe cfgLang dev f (DiarOutcome.ok []) moveOk
          samples).calls.head?
        = some ⟨CallSite.zeroSegFB, langOf cfgLang⟩) ∧
    (langOf "auto" = none ∧
      ∀ cfgLang : String, cfgLang ≠ "auto" → langOf cfgLang = some cfgLang) := by
  refine ⟨?_, ?_, ?_, ?_, ?_⟩
  · intro cfgLang f samples hs
    cases hf : f 0 <;> simp [transcribeStandard, hs, hf]
  · intro cfgLang f samples source hsrc
    cases hf : f 0 <;> simp [transcribeStandard, hsrc, hf]
  · intro cfgLang dev f moveOk samples
    cases hf : f 0 with
    | ok t => simp [diarizeAndTranscribe, hf]
    | oom =>
      simp only [diarizeAndTranscribe, List.length_nil, if_true, hf]
      unfold oomHandler
      split
      · rfl
      · cases f 1 <;> rfl
    | err =>
      simp only [diarizeAndTranscribe, List.length_nil, if_true, hf]
      unfold errHandler
      cases f 1 <;> rfl
  · simp [langOf]
  · intro cfgLang hcfg
    simp [langOf, hcfg]

/-- Claim C9 witness: with configured language de, a loud MIC chunk is
still transcribed with en while the loopback standard path passes de;
and langOf maps de to itself. -/
theorem language_policy_witness :
    (transcribeStandard "de" (fun _ => CallOutcome.ok "x") [1] "MIC").calls
      = [⟨CallSite.micStd, some "en"⟩] ∧
    (transcribeStandard "de" (fun _ => CallOutcome.ok "x") [1] "LOOPBACK").calls
      = [⟨CallSite.loopStd, langOf "de"⟩] ∧
    langOf "de" = some "de" :=
  ⟨language_policy.1 "de" (fun _ => CallOutcome.ok "x") [1]
      (by norm_num [silentMic, sumsq]),
   language_policy.2.1 "de" (fun _ => CallOutcome.ok "x") [1] "LOOPBACK"
      (by decide),
   language_policy.2.2.2.2 "de" (by decide)⟩

/-- Claim C5: within one diarized chunk of three eligible segments, if
the first transcription attempt of segment 2 raises and its single
relaxed-parameter retry (language en) also raises, the chunk still
yields the transcripts of segments 1 and 3 with their speaker labels:
the calls are exactly first-attempt(seg 0), first-attempt(seg 1),
retry(seg 1), first-attempt(seg 2), the failed segment alone is given
up, nothing escapes, and the devices are untouched. -/
theorem segment_retry_isolation (cfgLang : String) (dev : Devices)
    (f : Nat → CallOutcome) (moveOk : Bool) (samples : List ℚ)
    (s1 s2 s3 : Seg) (t1 t3 : String)
    (e1 : 3200 ≤ segLen samples.length s1)
    (e2 : 3200 ≤ segLen samples.length s2)
    (e3 : 3200 ≤ segLen samples.length s3)
    (hf0 : f 0 = CallOutcome.ok t1)
    (hf1 : raises (f 1) = true)
    (hf2 : raises (f 2) = true)
    (hf3 : f 3 = CallOutcome.ok t3)
    (ht1 : pyStrip t1 ≠ "") (ht3 : pyStrip t3 ≠ "") :
    (diarizeAndTranscribe cfgLang dev f (DiarOutcome.ok [s1, s2, s3]) moveOk
        samples).calls
      = [⟨CallSite.segFirst 0, langOf cfgLang⟩,
         ⟨CallSite.segFirst 1, langOf cfgLang⟩,
         ⟨CallSite.segRetry 1, some "en"⟩,
         ⟨CallSite.segFirst 2, langOf cfgLang⟩] ∧
    (diarizeAndTranscribe cfgLang dev f (DiarOutcome.ok [s1, s2, s3]) moveOk
        samples).emits
      = [⟨pyStrip t1, "LOOPBACK", some s1.speaker⟩,
         ⟨pyStrip t3, "LOOPBACK", some s3.speaker⟩] ∧
    (diarizeAndTranscribe cfgLang dev f (DiarOutcome.ok [s1, s2, s3]) moveOk
        samples).raised = false ∧
    (diarizeAndTranscribe cfgLang dev f (DiarOutcome.ok [s1, s2, s3]) moveOk
        samples).dev = dev := by
  have n1 : ¬ (segLen samples.length s1 < 3200) := by omega
  have n2 : ¬ (segLen samples.length s2 < 3200) := by omega
  have n3 : ¬ (segLen samples.length s3 < 3200) := by omega
  cases hc1 : f 1 with
  | ok t =>
    rw [hc1] at hf1
    simp [raises] at hf1
  | oom =>
    cases hc2 : f 2 with
    | ok t =>
      rw [hc2] at hf2
      simp [raises] at hf2
    | oom =>
      refine ⟨?_, ?_, ?_, ?_⟩ <;>
        simp [diarizeAndTranscribe, procSegs, procSeg, usedCalls, List.enum,
          List.enumFrom, hf0, hc1, hc2, hf3, n1, n2, n3, emitIf, ht1, ht3]
    | err =>
      refine ⟨?_, ?_, ?_, ?_⟩ <;>
        simp [diarizeAndTranscribe, procSegs, procSeg, usedCalls, List.enum,
          List.enumFrom, hf0, hc1, hc2, hf3, n1, n2, n3, emitIf, ht1, ht3]
  | err =>
    cases hc2 : f 2 with
    | ok t =>
      rw [hc2] at hf2
      simp [raises] at hf2
    | oom =>
      refine ⟨?_, ?_, ?_, ?_⟩ <;>
        simp [diarizeAndTranscribe, procSegs, procSeg, usedCalls, List.enum,
          List.enumFrom, hf0, hc1, hc2, hf3, n1, n2, n3, emitIf, ht1, ht3]
    | err =>
      refine ⟨?_, ?_, ?_, ?_⟩ <;>
        simp [diarizeAndTranscribe, procSegs, procSeg, usedCalls, List.enum,
          List.enumFrom, hf0, hc1, hc2, hf3, n1, n2, n3, emitIf, ht1, ht3]

/-- Claim C5 witness: three concrete eligible segments over a 4000-sample
chunk, with the engine failing twice on segment 2 (first attempt and
retry) and succeeding on segments 1 and 3. -/
theorem segment_retry_isolation_witness :
    (diarizeAndTranscribe "en" ⟨false, false⟩
        (fun k => if k = 0 then CallOutcome.ok "one"
          else if k = 3 then CallOutcome.ok "three" else CallOutcome.oom)
        (DiarOutcome.ok [⟨0, 4000, "A"⟩, ⟨0, 3300, "B"⟩, ⟨100, 4000, "C"⟩])
        true (List.replicate 4000 (0:ℚ))).calls
      = [⟨CallSite.segFirst 0, langOf "en"⟩,
         ⟨CallSite.segFirst 1, langOf "en"⟩,
         ⟨CallSite.segRetry 1, some "en"⟩,
         ⟨CallSite.segFirst 2, langOf "en"⟩] ∧
    (diarizeAndTranscribe "en" ⟨false, false⟩
        (fun k => if k = 0 then CallOutcome.ok "one"
          else if k = 3 then CallOutcome.ok "three" else CallOutcome.oom)
        (DiarOutcome.ok [⟨0, 4000, "A"⟩, ⟨0, 3300, "B"⟩, ⟨100, 4000, "C"⟩])
        true (List.replicate 4000 (0:ℚ))).emits
      = [⟨pyStrip "one", "LOOPBACK", some "A"⟩,
         ⟨pyStrip "three", "LOOPBACK", some "C"⟩] := by
  have h := segment_retry_isolation "en" ⟨false, false⟩
    (fun k => if k = 0 then CallOutcome.ok "one"
      else if k = 3 then CallOutcome.ok "three" else CallOutcome.oom)
    true (List.replicate 4000 (0:ℚ))
    ⟨0, 4000, "A"⟩ ⟨0, 3300, "B"⟩ ⟨100, 4000, "C"⟩ "one" "three"
    (by norm_num [segLen, List.length_replicate])
    (by norm_num [segLen, List.length_replicate])
    (by norm_num [segLen, List.length_replicate])
    rfl rfl rfl rfl (by decide) (by decide)
  exact ⟨h.1, h.2.1⟩
